import Mathlib

/-!
Verification development for `raspap_display.py`: a shallow embedding of the
display state machine, touch-input pipeline, status caches, VPN controller and
change detector, together with theorems about the claims of the specification.

Conventions of the embedding:
* Python global state is passed explicitly (`VpnState`, `UiState`, ...).
* `run_command` outputs are supplied by an environment `env : String → String`
  mapping a systemd service name to the output of
  `sudo systemctl is-active <service>` at the moment of the query.
* Side effects (display messages, shell commands, sleeps, forced GeoIP
  refreshes) are recorded in an explicit `Event` trace.
* Timestamps and durations are rationals (`ℚ`); sleep durations are the
  literal numbers of seconds from the source.
-/

/-- The VPN status strings of the source
(`"INIT" / "VPN_OFF" / "VPN_CONNECTING" / "VPN_ON" / "VPN_DISCONNECTING" / "VPN_ERROR"`). -/
inductive VpnStatus where
  | INIT
  | VPN_OFF
  | VPN_CONNECTING
  | VPN_ON
  | VPN_DISCONNECTING
  | VPN_ERROR
deriving DecidableEq, Repr

/-- One record of `vpn_connections.json`: `{name, server, protocol}`. The
derived field `config_basename_no_ext` is computed by
`get_vpn_config_basename_no_ext` below, exactly as `load_vpn_connections` does. -/
structure VpnDef where
  name : String
  server : String
  protocol : String
deriving DecidableEq, Repr

/-- Python `str.lower()` on ASCII protocol names, as a character-wise map
(kernel-computable counterpart of `String.toLower`). -/
def strLower (s : String) : String :=
  String.mk (s.data.map Char.toLower)

/-- `get_vpn_config_basename_no_ext(vpn_def)` = `f"{server}.{protocol.lower()}"`. -/
def get_vpn_config_basename_no_ext (vpn_def : VpnDef) : String :=
  vpn_def.server ++ "." ++ strLower vpn_def.protocol

/-- `get_vpn_service_name(basename)` = `f"openvpn-client@{basename}"`. -/
def get_vpn_service_name (config_basename_no_ext : String) : String :=
  "openvpn-client@" ++ config_basename_no_ext

/-- Observable side effects of the embedded operations, in program order. -/
inductive Event where
  /-- a `display_message(txt)` call -/
  | message (txt : String)
  /-- `run_command(f"sudo systemctl start {svc}")` -/
  | sysStart (svc : String)
  /-- `run_command(f"sudo systemctl stop {svc}")` -/
  | sysStop (svc : String)
  /-- `run_command(f"sudo systemctl is-active {svc}")` inside the health check -/
  | isActiveCheck (svc : String)
  /-- any other `run_command(cmd)` -/
  | rawCommand (cmd : String)
  /-- `time.sleep(n)` -/
  | sleepSec (n : Nat)
  /-- `update_system_stats(force_geoip_update=True)` -/
  | geoRefresh
  /-- `toggle_internet_feed_action()` (touches only network-status globals,
  none of which belong to the modelled state) -/
  | netToggle
deriving DecidableEq, Repr

/-- Python truthiness of an optional string: `None` and `""` are falsy. -/
def optStrTruthy : Option String → Bool
  | none => false
  | some s => decide (s ≠ "")

/-- Python `a or b` for an optional string `a` and a string `b`. -/
def optStrOrElse (a : Option String) (b : String) : String :=
  match a with
  | some s => if s = "" then b else s
  | none => b

/-- The VPN part of the global state:
`current_vpn_status`, `current_vpn_config_basename`, `current_vpn_display_name`. -/
structure VpnState where
  status : VpnStatus
  config_basename : Option String
  display_name : Option String
deriving DecidableEq, Repr

/-- `get_specific_vpn_service_status(service_name_to_check)` (lines 324-339):
empty service name (falsy) ⇒ `VPN_ERROR` without running a command;
output `"active"` ⇒ `VPN_ON`; `"inactive"`/`"failed"` ⇒ `VPN_OFF`;
empty output ⇒ `VPN_ERROR`; anything else ⇒ `VPN_ERROR`.
Returns the status together with the is-active query event (emitted only when
the command actually runs). -/
def get_specific_vpn_service_status (service_name_to_check : String)
    (env : String → String) : VpnStatus × List Event :=
  if service_name_to_check = "" then (.VPN_ERROR, [])
  else
    let status_output := env service_name_to_check
    if status_output = "active" then (.VPN_ON, [.isActiveCheck service_name_to_check])
    else if status_output = "inactive" ∨ status_output = "failed" then
      (.VPN_OFF, [.isActiveCheck service_name_to_check])
    else if status_output = "" then (.VPN_ERROR, [.isActiveCheck service_name_to_check])
    else (.VPN_ERROR, [.isActiveCheck service_name_to_check])

/-- `update_vpn_status(initial_check=False)` (lines 342-376, non-initial path):
if a config basename is set (truthy), re-check its service; `VPN_ON` keeps the
profile, `VPN_OFF` clears the profile only when the old status was `VPN_ON`
and the display name is truthy, any other check outcome sets `VPN_ERROR`
without clearing the profile.  With no basename the status becomes `VPN_OFF`
and the display name is cleared (the inner `if not current_vpn_config_basename`
of the source is vacuously true in that branch). -/
def update_vpn_status (env : String → String) (s : VpnState) : VpnState × List Event :=
  if optStrTruthy s.config_basename then
    let svc_name := get_vpn_service_name (s.config_basename.getD "")
    let checked := get_specific_vpn_service_status svc_name env
    if checked.1 = .VPN_ON then ({ s with status := .VPN_ON }, checked.2)
    else if checked.1 = .VPN_OFF then
      if s.status = .VPN_ON ∧ optStrTruthy s.display_name then
        (⟨.VPN_OFF, none, none⟩, checked.2)
      else ({ s with status := .VPN_OFF }, checked.2)
    else ({ s with status := .VPN_ERROR }, checked.2)
  else
    ({ s with status := .VPN_OFF, display_name := none }, [])

/-- `update_vpn_status(initial_check=True)` (lines 345-355): reset to
`(VPN_OFF, None, None)`, then scan `available_vpns` and adopt the first
profile whose service is active. -/
def update_vpn_status_initial (available_vpns : List VpnDef) (env : String → String) :
    VpnState :=
  match available_vpns.find? (fun vd =>
      (get_specific_vpn_service_status
        (get_vpn_service_name (get_vpn_config_basename_no_ext vd)) env).1 = .VPN_ON) with
  | some vd => ⟨.VPN_ON, some (get_vpn_config_basename_no_ext vd), some vd.name⟩
  | none => ⟨.VPN_OFF, none, none⟩

/-- `disconnect_vpn(silent, called_during_connect)` (lines 413-437): no-op with
status `VPN_OFF` when no basename is set (truthy check); otherwise optionally
render feedback, stop the service, sleep 3 s, re-check (result only logged),
always clear the profile and set `VPN_OFF`; when not called from
`connect_vpn`, force a GeoIP refresh and recompute the status. -/
def disconnect_vpn (silent called_during_connect : Bool) (env : String → String)
    (s : VpnState) : VpnState × List Event :=
  if optStrTruthy s.config_basename = false then
    ({ s with status := .VPN_OFF }, [])
  else
    let svc_name := get_vpn_service_name (s.config_basename.getD "")
    let disp_name_disc := optStrOrElse s.display_name (s.config_basename.getD "")
    let evs_msg : List Event :=
      if silent then [] else [.message ("VPN: Disconnecting\n" ++ disp_name_disc.take 18)]
    let checked := get_specific_vpn_service_status svc_name env
    let evs := evs_msg ++ [.sysStop svc_name, .sleepSec 3] ++ checked.2
    let s2 : VpnState := ⟨.VPN_OFF, none, none⟩
    if called_during_connect then (s2, evs)
    else
      let upd := update_vpn_status env s2
      (upd.1, evs ++ [.geoRefresh] ++ upd.2)

/-- `connect_vpn(vpn_def_to_connect)` (lines 378-411).  Also threads
`show_vpn_menu`, which the source mutates (cleared on the already-active
no-op and on success).  Returns (vpn state, show_vpn_menu, event trace). -/
def connect_vpn (vpn_def_to_connect : VpnDef) (env : String → String)
    (s : VpnState) (show_vpn_menu : Bool) : VpnState × Bool × List Event :=
  let cfg := get_vpn_config_basename_no_ext vpn_def_to_connect
  if s.config_basename = some cfg ∧ s.status = .VPN_ON then
    (s, false, [])
  else
    let s1 : VpnState := { s with status := .VPN_CONNECTING }
    let ev0 : List Event :=
      [.message ("VPN: Connecting\n" ++ vpn_def_to_connect.name.take 18)]
    let disc := if optStrTruthy s1.config_basename
                then disconnect_vpn true true env s1
                else (s1, [])
    let new_svc_name := get_vpn_service_name cfg
    let ev2 : List Event := [.sysStart new_svc_name, .sleepSec 7]
    let checked := get_specific_vpn_service_status new_svc_name env
    if checked.1 = .VPN_ON then
      let s3 : VpnState := ⟨.VPN_ON, some cfg, some vpn_def_to_connect.name⟩
      let upd := update_vpn_status env s3
      (upd.1, false, ev0 ++ disc.2 ++ ev2 ++ checked.2 ++ [.geoRefresh] ++ upd.2)
    else
      let st : VpnStatus := if checked.1 = .VPN_ERROR then .VPN_ERROR else .VPN_OFF
      let s3 : VpnState := ⟨st, none, none⟩
      let ev4 : List Event :=
        [.message ("VPN: Failed\n" ++ vpn_def_to_connect.name.take 18), .sleepSec 2]
      let upd := update_vpn_status env s3
      (upd.1, show_vpn_menu, ev0 ++ disc.2 ++ ev2 ++ checked.2 ++ ev4 ++ upd.2)

/-! ## Status caches (`get_cached_ap_ssid`, `get_cached_ap_clients`, lines 188-256) -/

/-- `CACHE_AP_SSID_DURATION = 10` seconds. -/
def CACHE_AP_SSID_DURATION : ℚ := 10

/-- `CACHE_AP_CLIENTS_DURATION = 5` seconds. -/
def CACHE_AP_CLIENTS_DURATION : ℚ := 5

/-- `_ap_ssid_cache = {'ssid': None, 'timestamp': 0}`. -/
structure ApSsidCache where
  ssid : Option String
  timestamp : ℚ
deriving DecidableEq, Repr

/-- `_ap_clients_cache = {'clients': None, 'timestamp': 0}`. -/
structure ApClientsCache where
  clients : Option Nat
  timestamp : ℚ
deriving DecidableEq, Repr

/-- Result of `call_raspap_api("ap")`: outer `none` is an API failure, the
inner option is presence of the `'ssid'` key.  The value extraction is
`ap_details.get('ssid', "N/A") if ap_details else "N/A"`. -/
def api_ssid_value : Option (Option String) → String
  | some (some v) => v
  | some none => "N/A"
  | none => "N/A"

/-- Result of `call_raspap_api(f"clients/{iface}")`: outer `none` is an API
failure, the inner option is presence of `'active_clients'` (carrying its
length).  The value extraction is
`len(details['active_clients']) if details and 'active_clients' in details else 0`. -/
def api_clients_value : Option (Option Nat) → Nat
  | some (some n) => n
  | some none => 0
  | none => 0

/-- `get_cached_ap_ssid()` (lines 229-240): return the stored SSID without a
fetch iff one is stored and `now - timestamp < CACHE_AP_SSID_DURATION`;
otherwise fetch, store value and timestamp, and return the fetched value.
The third component records whether a fetch happened. -/
def get_cached_ap_ssid (now : ℚ) (api : Option (Option String)) (c : ApSsidCache) :
    String × ApSsidCache × Bool :=
  match c.ssid with
  | some s =>
    if now - c.timestamp < CACHE_AP_SSID_DURATION then (s, c, false)
    else
      let v := api_ssid_value api
      (v, ⟨some v, now⟩, true)
  | none =>
    let v := api_ssid_value api
    (v, ⟨some v, now⟩, true)

/-- `get_cached_ap_clients()` (lines 243-256), same shape as the SSID cache
with `CACHE_AP_CLIENTS_DURATION`. -/
def get_cached_ap_clients (now : ℚ) (api : Option (Option Nat)) (c : ApClientsCache) :
    Nat × ApClientsCache × Bool :=
  match c.clients with
  | some k =>
    if now - c.timestamp < CACHE_AP_CLIENTS_DURATION then (k, c, false)
    else
      let v := api_clients_value api
      (v, ⟨some v, now⟩, true)
  | none =>
    let v := api_clients_value api
    (v, ⟨some v, now⟩, true)

/-! ## Snapshot and change detector (`have_states_changed`, lines 939-980) -/

/-- A `DisplaySnapshot`: the dict built by `get_current_display_state`,
split as the code itself splits it — the `'cpu_temp'` entry (absent on
non-main screens) and all remaining key/value pairs in insertion order.
Snapshots are always built by the same code path, so dict equality of the
non-temperature part coincides with equality of this ordered list. -/
structure Snapshot where
  rest : List (String × String)
  cpu_temp : Option String
deriving DecidableEq, Repr

/-- Numeric value of a list of decimal digits. -/
def decDigitsVal (cs : List Char) : Nat :=
  cs.foldl (fun a c => 10 * a + (c.toNat - 48)) 0

/-- Sign, integer-digit value, fraction-digit value and fraction length of a
plain decimal literal; `none` when the string is not such a literal. -/
def parseFloatParts (s : String) : Option (Bool × Nat × Nat × Nat) :=
  let cs := s.data
  let neg : Bool := cs.head? = some '-'
  let cs1 := if cs.head? = some '-' ∨ cs.head? = some '+' then cs.tail else cs
  let ip := cs1.takeWhile (fun c => c ≠ '.')
  let rest := cs1.dropWhile (fun c => c ≠ '.')
  match rest with
  | [] =>
    if ip ≠ [] ∧ ip.all Char.isDigit then some (neg, decDigitsVal ip, 0, 0)
    else none
  | _ :: fr =>
    if ip.all Char.isDigit ∧ fr.all Char.isDigit ∧ (ip ≠ [] ∨ fr ≠ []) then
      some (neg, decDigitsVal ip, decDigitsVal fr, fr.length)
    else none

/-- Model of Python `float(s)` on the plain decimal literals the snapshot
code produces (`f"{x:.1f}"`): optional sign, digits, optional fractional
part.  Returns `none` when the string is not such a literal (the
`ValueError` path of the source). -/
def parseFloat (s : String) : Option ℚ :=
  match parseFloatParts s with
  | some (neg, i, f, k) =>
    some ((if neg then (-1 : ℚ) else 1) * ((i : ℚ) + (f : ℚ) / (10 : ℚ) ^ k))
  | none => none

/-- `temp_delta_threshold = 2.0` (line 963). -/
def temp_delta_threshold : ℚ := 2

/-- `have_states_changed(old, new)` (lines 939-980): an empty previous
snapshot (falsy dict) always redraws; otherwise compare everything except
`'cpu_temp'` structurally; then compare the temperatures — both parseable:
redraw iff the absolute difference exceeds `temp_delta_threshold`; a parse
failure (`ValueError`): redraw iff the raw strings differ; presence
mismatch: redraw. -/
def have_states_changed (old new_ : Snapshot) : Bool :=
  if old.rest = [] ∧ old.cpu_temp = none then true
  else if old.rest ≠ new_.rest then true
  else
    match old.cpu_temp, new_.cpu_temp with
    | some old_t_str, some new_t_str =>
      match parseFloat new_t_str, parseFloat old_t_str with
      | some nv, some ov =>
        if |nv - ov| > temp_delta_threshold then true else false
      | _, _ =>
        if old_t_str ≠ new_t_str then true else false
    | _, _ =>
      if old.cpu_temp ≠ new_.cpu_temp then true else false

/-! ## Button layout (lines 60-126) -/

/-- `UI_EPD_WIDTH = 250`. -/
def UI_EPD_WIDTH : Int := 250

/-- `UI_EPD_HEIGHT = 122`. -/
def UI_EPD_HEIGHT : Int := 122

/-- `BTN_WIDTH = 80`. -/
def BTN_WIDTH : Int := 80

/-- `BTN_MARGIN = 5`. -/
def BTN_MARGIN : Int := 5

/-- `BTN_X = UI_EPD_WIDTH - BTN_WIDTH - BTN_MARGIN`. -/
def BTN_X : Int := UI_EPD_WIDTH - BTN_WIDTH - BTN_MARGIN

/-- `NUM_MAIN_BUTTONS = 4`. -/
def NUM_MAIN_BUTTONS : Int := 4

/-- `gap_h = 4`. -/
def gap_h : Int := 4

/-- `BTN_HEIGHT = (UI_EPD_HEIGHT - 2*BTN_MARGIN - (NUM_MAIN_BUTTONS-1)*gap_h) // NUM_MAIN_BUTTONS`
(= 25, so the `BTN_HEIGHT <= 0` fallback of lines 78-85 is dead). -/
def BTN_HEIGHT : Int :=
  (UI_EPD_HEIGHT - 2 * BTN_MARGIN - (NUM_MAIN_BUTTONS - 1) * gap_h) / NUM_MAIN_BUTTONS

/-- `BTN_SLOT_1_Y = BTN_MARGIN`. -/
def BTN_SLOT_1_Y : Int := BTN_MARGIN

/-- `BTN_SLOT_2_Y = BTN_SLOT_1_Y + BTN_HEIGHT + gap_h`. -/
def BTN_SLOT_2_Y : Int := BTN_SLOT_1_Y + BTN_HEIGHT + gap_h

/-- `BTN_SLOT_3_Y = BTN_SLOT_2_Y + BTN_HEIGHT + gap_h`. -/
def BTN_SLOT_3_Y : Int := BTN_SLOT_2_Y + BTN_HEIGHT + gap_h

/-- `BTN_SLOT_4_Y = BTN_SLOT_3_Y + BTN_HEIGHT + gap_h`. -/
def BTN_SLOT_4_Y : Int := BTN_SLOT_3_Y + BTN_HEIGHT + gap_h

/-- A `ButtonArea` rectangle `(x, y, width, height)`. -/
structure Rect where
  x : Int
  y : Int
  w : Int
  h : Int
deriving DecidableEq, Repr

/-- `BUTTON_AREAS` (main screen), in declaration order. -/
def BUTTON_AREAS : List (String × Rect) :=
  [("net_toggle", ⟨BTN_X, BTN_SLOT_1_Y, BTN_WIDTH, BTN_HEIGHT⟩),
   ("vpn_menu", ⟨BTN_X, BTN_SLOT_2_Y, BTN_WIDTH, BTN_HEIGHT⟩),
   ("system", ⟨BTN_X, BTN_SLOT_3_Y, BTN_WIDTH, BTN_HEIGHT⟩),
   ("info", ⟨BTN_X, BTN_SLOT_4_Y, BTN_WIDTH, BTN_HEIGHT⟩)]

/-- `SYSTEM_BUTTON_AREAS`. -/
def SYSTEM_BUTTON_AREAS : List (String × Rect) :=
  [("reboot", ⟨BTN_X, BTN_SLOT_1_Y, BTN_WIDTH, BTN_HEIGHT⟩),
   ("shutdown", ⟨BTN_X, BTN_SLOT_2_Y, BTN_WIDTH, BTN_HEIGHT⟩),
   ("back", ⟨BTN_X, BTN_SLOT_4_Y, BTN_WIDTH, BTN_HEIGHT⟩)]

/-- `INFO_BUTTON_AREAS`. -/
def INFO_BUTTON_AREAS : List (String × Rect) :=
  [("prev", ⟨BTN_X, BTN_SLOT_1_Y, BTN_WIDTH, BTN_HEIGHT⟩),
   ("next", ⟨BTN_X, BTN_SLOT_2_Y, BTN_WIDTH, BTN_HEIGHT⟩),
   ("back", ⟨BTN_X, BTN_SLOT_4_Y, BTN_WIDTH, BTN_HEIGHT⟩)]

/-- `VPN_LIST_NAV_BUTTON_AREAS`. -/
def VPN_LIST_NAV_BUTTON_AREAS : List (String × Rect) :=
  [("up", ⟨BTN_X, BTN_SLOT_1_Y, BTN_WIDTH, BTN_HEIGHT⟩),
   ("down", ⟨BTN_X, BTN_SLOT_2_Y, BTN_WIDTH, BTN_HEIGHT⟩),
   ("disconnect", ⟨BTN_X, BTN_SLOT_3_Y, BTN_WIDTH, BTN_HEIGHT⟩),
   ("back", ⟨BTN_X, BTN_SLOT_4_Y, BTN_WIDTH, BTN_HEIGHT⟩)]

/-- `VPN_LIST_ITEM_HEIGHT = 20`. -/
def VPN_LIST_ITEM_HEIGHT : Int := 20

/-- `VPN_LIST_ITEMS_PER_SCREEN = 4`. -/
def VPN_LIST_ITEMS_PER_SCREEN : Nat := 4

/-- `VPN_LIST_X_START = BTN_MARGIN`. -/
def VPN_LIST_X_START : Int := BTN_MARGIN

/-- `VPN_LIST_Y_START = BTN_MARGIN + 20`. -/
def VPN_LIST_Y_START : Int := BTN_MARGIN + 20

/-- `VPN_LIST_WIDTH = UI_EPD_WIDTH - 2*BTN_MARGIN - BTN_WIDTH - BTN_MARGIN`. -/
def VPN_LIST_WIDTH : Int := UI_EPD_WIDTH - 2 * BTN_MARGIN - BTN_WIDTH - BTN_MARGIN

/-- `MAX_INFO_PAGES = 2`. -/
def MAX_INFO_PAGES : Int := 2

/-- `touch_cooldown = 0.5` seconds. -/
def touch_cooldown : ℚ := 1 / 2

/-- The hit test `x <= tx <= x+w and y <= ty <= y+h` (inclusive borders). -/
def inRect (tx ty : Int) (r : Rect) : Bool :=
  decide (r.x ≤ tx ∧ tx ≤ r.x + r.w ∧ r.y ≤ ty ∧ ty ≤ r.y + r.h)

/-- Iterating a button dict in declaration order with `break` on the first
geometric hit: the name of the first containing area, if any. -/
def firstHit (areas : List (String × Rect)) (tx ty : Int) : Option String :=
  match areas.find? (fun p => inRect tx ty p.2) with
  | some p => some p.1
  | none => none

/-! ## UI state and `check_button_press` (lines 128-147, 646-740) -/

/-- The UI part of the global state:
`show_system_menu`, `show_info_screen`, `show_vpn_menu`, `info_page`,
`vpn_list_scroll_offset`, `last_button_press`, plus the VPN state touched by
the `disconnect`/row-tap actions. -/
structure UiState where
  show_system_menu : Bool
  show_info_screen : Bool
  show_vpn_menu : Bool
  info_page : Int
  vpn_list_scroll_offset : Int
  last_button_press : ℚ
  vpn : VpnState
deriving DecidableEq, Repr

/-- Which screen the dispatch order of the source treats as active
(`if show_vpn_menu ... elif show_info_screen ... elif show_system_menu ... else` main). -/
inductive Screen where
  | Main
  | SystemMenu
  | InfoScreen
  | VpnMenu
deriving DecidableEq, Repr

/-- The active screen under the source's dispatch order. -/
def activeScreen (s : UiState) : Screen :=
  if s.show_vpn_menu then .VpnMenu
  else if s.show_info_screen then .InfoScreen
  else if s.show_system_menu then .SystemMenu
  else .Main

/-- Result classification of `check_button_press`:
`ACTION_NONE = 0`, `ACTION_NORMAL_PRESS = 1`, `ACTION_MENU_CHANGE = 2`. -/
inductive ActionResult where
  | ACTION_NONE
  | ACTION_NORMAL_PRESS
  | ACTION_MENU_CHANGE
deriving DecidableEq, Repr

/-- Intermediate result of the per-screen dispatch inside
`check_button_press`: `pressed_action_name`, `action_caused_menu_change`,
the mutated state and the emitted events. -/
structure DispatchOut where
  pressed : Option String
  menuChange : Bool
  ui : UiState
  events : List Event
deriving Repr

/-- The VPN-row loop of lines 681-689: scan indices
`range(scroll_offset, min(len(vpns), scroll_offset + VPN_LIST_ITEMS_PER_SCREEN))`
with the row rectangle advancing by `VPN_LIST_ITEM_HEIGHT + 2`, returning the
first row containing the point.  The fuel argument is the size of the range. -/
def hit_vpn_row_go (vpns : List VpnDef) (tx ty : Int) : Nat → Int → Nat → Option VpnDef
  | _, _, 0 => none
  | i, y, Nat.succ fuel =>
    match vpns[i]? with
    | none => none
    | some vd =>
      if VPN_LIST_X_START ≤ tx ∧ tx ≤ VPN_LIST_X_START + VPN_LIST_WIDTH ∧
         y ≤ ty ∧ ty ≤ y + VPN_LIST_ITEM_HEIGHT then
        some vd
      else hit_vpn_row_go vpns tx ty (i + 1) (y + VPN_LIST_ITEM_HEIGHT + 2) fuel

/-- Entry point of the VPN-row loop.  The scroll offset is a non-negative
integer in every reachable state, so `Int.toNat` is exact here. -/
def hit_vpn_row (vpns : List VpnDef) (scroll_offset : Nat) (tx ty : Int) : Option VpnDef :=
  hit_vpn_row_go vpns tx ty scroll_offset VPN_LIST_Y_START
    (min vpns.length (scroll_offset + VPN_LIST_ITEMS_PER_SCREEN) - scroll_offset)

/-- The nav-button loop of the `show_vpn_menu` branch (lines 660-678):
`break` on the first geometric hit, guards checked inside the loop body. -/
def vpn_nav_dispatch (vpns : List VpnDef) (env : String → String) (tx ty : Int)
    (s : UiState) : DispatchOut :=
  match firstHit VPN_LIST_NAV_BUTTON_AREAS tx ty with
  | some nm =>
    if nm = "up" then
      if s.vpn_list_scroll_offset > 0 then
        ⟨some "VPN_SCROLL_UP", false,
          { s with vpn_list_scroll_offset := s.vpn_list_scroll_offset - 1 }, []⟩
      else ⟨none, false, s, []⟩
    else if nm = "down" then
      if s.vpn_list_scroll_offset < (vpns.length : Int) - (VPN_LIST_ITEMS_PER_SCREEN : Int) then
        ⟨some "VPN_SCROLL_DOWN", false,
          { s with vpn_list_scroll_offset := s.vpn_list_scroll_offset + 1 }, []⟩
      else ⟨none, false, s, []⟩
    else if nm = "disconnect" then
      if s.vpn.status = .VPN_ON then
        let r := disconnect_vpn false false env s.vpn
        ⟨some "VPN_DISCONNECT", false, { s with vpn := r.1 }, r.2⟩
      else ⟨none, false, s, []⟩
    else if nm = "back" then
      ⟨some "VPN_BACK", true, { s with show_vpn_menu := false }, []⟩
    else ⟨none, false, s, []⟩
  | none => ⟨none, false, s, []⟩

/-- The `show_vpn_menu` branch of `check_button_press` (lines 659-689):
nav buttons first, then — if no action was taken — the visible rows. -/
def vpn_menu_dispatch (vpns : List VpnDef) (env : String → String) (tx ty : Int)
    (s : UiState) : DispatchOut :=
  let d1 := vpn_nav_dispatch vpns env tx ty s
  match d1.pressed with
  | some _ => d1
  | none =>
    match hit_vpn_row vpns d1.ui.vpn_list_scroll_offset.toNat tx ty with
    | some vd =>
      let r := connect_vpn vd env d1.ui.vpn d1.ui.show_vpn_menu
      ⟨some ("VPN_CONNECT_" ++ vd.name), false,
        { d1.ui with vpn := r.1, show_vpn_menu := r.2.1 }, r.2.2⟩
    | none => d1

/-- The `show_info_screen` branch of `check_button_press` (lines 691-702). -/
def info_dispatch (tx ty : Int) (s : UiState) : DispatchOut :=
  match firstHit INFO_BUTTON_AREAS tx ty with
  | some nm =>
    let pa := some ("INFO_" ++ nm.toUpper)
    if nm = "prev" then ⟨pa, false, { s with info_page := max 0 (s.info_page - 1) }, []⟩
    else if nm = "next" then
      ⟨pa, false, { s with info_page := min (MAX_INFO_PAGES - 1) (s.info_page + 1) }, []⟩
    else if nm = "back" then ⟨pa, true, { s with show_info_screen := false }, []⟩
    else ⟨pa, false, s, []⟩
  | none => ⟨none, false, s, []⟩

/-- The `show_system_menu` branch of `check_button_press` (lines 703-714).
`reboot_pi`/`shutdown_pi` (lines 605-610) are modelled by their event traces
(`display_message`, 1 s sleep, `display_final_message` with its 5 s sleep,
privileged command). -/
def system_dispatch (tx ty : Int) (s : UiState) : DispatchOut :=
  match firstHit SYSTEM_BUTTON_AREAS tx ty with
  | some nm =>
    let pa := some ("SYS_" ++ nm.toUpper)
    if nm = "reboot" then
      ⟨pa, false, s,
        [.message "Rebooting...", .sleepSec 1, .message "RaspAP\nRebooting",
         .sleepSec 5, .rawCommand "sudo reboot"]⟩
    else if nm = "shutdown" then
      ⟨pa, false, s,
        [.message "Shutting down...", .sleepSec 1, .message "RaspAP\nPowered Off",
         .sleepSec 5, .rawCommand "sudo shutdown now"]⟩
    else if nm = "back" then ⟨pa, true, { s with show_system_menu := false }, []⟩
    else ⟨pa, false, s, []⟩
  | none => ⟨none, false, s, []⟩

/-- The main-screen branch of `check_button_press` (lines 715-732).
`toggle_internet_feed_action` touches only network-status globals outside the
modelled state and is recorded as the opaque `netToggle` event. -/
def main_dispatch (tx ty : Int) (s : UiState) : DispatchOut :=
  match firstHit BUTTON_AREAS tx ty with
  | some nm =>
    let pa := some ("MAIN_" ++ nm.toUpper)
    if nm = "net_toggle" then ⟨pa, false, s, [.netToggle]⟩
    else if nm = "vpn_menu" then
      ⟨pa, true, { s with show_vpn_menu := true, vpn_list_scroll_offset := 0 }, []⟩
    else if nm = "system" then ⟨pa, true, { s with show_system_menu := true }, []⟩
    else if nm = "info" then
      ⟨pa, true, { s with show_info_screen := true, info_page := 0 }, []⟩
    else ⟨pa, false, s, []⟩
  | none => ⟨none, false, s, []⟩

/-- The screen selection of `check_button_press` (the
`if show_vpn_menu / elif show_info_screen / elif show_system_menu / else`
chain of lines 659-732). -/
def screen_dispatch (vpns : List VpnDef) (env : String → String) (tx ty : Int)
    (s : UiState) : DispatchOut :=
  if s.show_vpn_menu then vpn_menu_dispatch vpns env tx ty s
  else if s.show_info_screen then info_dispatch tx ty s
  else if s.show_system_menu then system_dispatch tx ty s
  else main_dispatch tx ty s

/-- The body of `check_button_press` past the cooldown gate (lines 656-740):
dispatch on the active screen; an executed action records
`last_button_press = now` and is classified `ACTION_MENU_CHANGE` exactly when
`action_caused_menu_change` was set. -/
def check_button_press_hit (vpns : List VpnDef) (env : String → String) (now : ℚ)
    (tx ty : Int) (s : UiState) : ActionResult × UiState × List Event :=
  match (screen_dispatch vpns env tx ty s).pressed with
  | some _ =>
    (if (screen_dispatch vpns env tx ty s).menuChange then .ACTION_MENU_CHANGE
     else .ACTION_NORMAL_PRESS,
     { (screen_dispatch vpns env tx ty s).ui with last_button_press := now },
     (screen_dispatch vpns env tx ty s).events)
  | none =>
    (.ACTION_NONE, (screen_dispatch vpns env tx ty s).ui,
     (screen_dispatch vpns env tx ty s).events)

/-- `check_button_press(tx, ty)` (lines 646-740): missing coordinates or a
press within `touch_cooldown` of the last accepted press yield `ACTION_NONE`
untouched; otherwise run the per-screen dispatch. -/
def check_button_press (vpns : List VpnDef) (env : String → String) (now : ℚ)
    (tx ty : Option Int) (s : UiState) : ActionResult × UiState × List Event :=
  match tx, ty with
  | some tx, some ty =>
    if now - s.last_button_press < touch_cooldown then (.ACTION_NONE, s, [])
    else check_button_press_hit vpns env now tx ty s
  | _, _ => (.ACTION_NONE, s, [])

/-! ## Main-loop touch gating (lines 1070-1101) -/

/-- The `TouchIgnoreWindow` globals `g_ignore_touch_input_temporarily` and
`g_ignore_touch_until_timestamp`, plus the in-flight touch-sample fields
`Touch` / `TouchCount` of the driver's `GT_Development` record. -/
structure TouchCtl where
  ignore_active : Bool
  ignore_until : ℚ
  gt_touch : Nat
  gt_touch_count : Nat
deriving DecidableEq, Repr

/-- Lines 1076-1084 of the main loop: an active unexpired window skips the
poll; an active expired window is deactivated first; `get_touch_coordinates`
is called iff the flag is clear afterwards and a touch driver exists.
Returns the new window state and whether the pointer was polled. -/
def loop_touch_gate (now_loop : ℚ) (t : TouchCtl) (touch_present : Bool) :
    TouchCtl × Bool :=
  let t2 :=
    if t.ignore_active ∧ now_loop < t.ignore_until then t
    else if t.ignore_active then { t with ignore_active := false }
    else t
  (t2, !t2.ignore_active && touch_present)

/-- Lines 1090-1101 of the main loop: a normal press just flags a redraw; a
menu change flags a redraw, arms the ignore window until `now + 0.7` and
clears the in-flight touch sample (`Touch = 0`, `TouchCount = 0`).
Returns the new touch-control state and the redraw flag. -/
def apply_action_result (now : ℚ) (res : ActionResult) (t : TouchCtl) : TouchCtl × Bool :=
  match res with
  | .ACTION_NORMAL_PRESS => (t, true)
  | .ACTION_MENU_CHANGE =>
    ({ ignore_active := true, ignore_until := now + 7 / 10,
       gt_touch := 0, gt_touch_count := 0 }, true)
  | .ACTION_NONE => (t, false)

/-! ## Reachable VPN states

States of the VPN triple reachable from startup
(`update_vpn_status(initial_check=True)` over the loaded profile list) by any
sequence of `connect_vpn`, `disconnect_vpn` and `update_vpn_status` calls,
each call observing an arbitrary command environment. -/

inductive VpnReachable (vpns : List VpnDef) : VpnState → Prop where
  | init (env : String → String) :
      VpnReachable vpns (update_vpn_status_initial vpns env)
  | update (s : VpnState) (env : String → String) :
      VpnReachable vpns s → VpnReachable vpns (update_vpn_status env s).1
  | disconnect (s : VpnState) (silent : Bool) (env : String → String) :
      VpnReachable vpns s → VpnReachable vpns (disconnect_vpn silent false env s).1
  | connect (s : VpnState) (vd : VpnDef) (env : String → String) (menu : Bool) :
      vd ∈ vpns → VpnReachable vpns s →
      VpnReachable vpns (connect_vpn vd env s menu).1

/-- The part of the C2 invariant that does hold: the profile key and display
name are cleared and set together, and when they are cleared the status is
`VPN_OFF`; additionally the stored key is never the empty string. -/
def VpnNamesInv (s : VpnState) : Prop :=
  (s.config_basename = none ↔ s.display_name = none) ∧
  (s.config_basename = none → s.status = .VPN_OFF) ∧
  s.config_basename ≠ some ""

/-- Recognizer for the service-stop / service-start commands among the events. -/
def isSysStopOrStart : Event → Bool
  | .sysStop _ => true
  | .sysStart _ => true
  | _ => false

theorem check_button_press_cooldown_ok (vpns : List VpnDef) (env : String → String)
    (now : ℚ) (tx ty : Int) (s : UiState)
    (h : ¬ (now - s.last_button_press < touch_cooldown)) :
    check_button_press vpns env now (some tx) (some ty) s =
      check_button_press_hit vpns env now tx ty s := by
  simp [check_button_press, h]

theorem get_vpn_service_name_ne_empty (b : String) : get_vpn_service_name b ≠ "" := by
  intro h
  have h2 : (get_vpn_service_name b).data = "".data := congrArg String.data h
  rw [get_vpn_service_name, String.data_append] at h2
  simp at h2

theorem get_vpn_config_basename_ne_empty (vd : VpnDef) :
    get_vpn_config_basename_no_ext vd ≠ "" := by
  intro h
  have h2 : (get_vpn_config_basename_no_ext vd).data = "".data := congrArg String.data h
  rw [get_vpn_config_basename_no_ext, String.data_append, String.data_append] at h2
  simp at h2

theorem get_specific_vpn_service_status_events (svc : String) (env : String → String)
    (h : svc ≠ "") :
    (get_specific_vpn_service_status svc env).2 = [.isActiveCheck svc] := by
  simp only [get_specific_vpn_service_status, if_neg h]
  split
  · rfl
  · split
    · rfl
    · split <;> rfl

theorem update_vpn_status_none (env : String → String) (st : VpnStatus)
    (d : Option String) :
    update_vpn_status env ⟨st, none, d⟩ = (⟨.VPN_OFF, none, none⟩, []) := by
  simp [update_vpn_status, optStrTruthy]

theorem vpn_names_inv_of_some (st : VpnStatus) (b : String) (d : Option String)
    (hb : b ≠ "") (hd : d ≠ none) : VpnNamesInv ⟨st, some b, d⟩ := by
  refine ⟨by simp [hd], by simp, by simp [hb]⟩

theorem update_vpn_status_preserves_inv (env : String → String) (s : VpnState)
    (h : VpnNamesInv s) : VpnNamesInv (update_vpn_status env s).1 := by
  obtain ⟨st, cb, dn⟩ := s
  obtain ⟨h1, h2, h3⟩ := h
  rcases cb with _ | b
  · rw [update_vpn_status_none]
    simp [VpnNamesInv]
  · have hbne : b ≠ "" := fun he => h3 (by simp [he])
    have hd : dn ≠ none := by
      intro hdn
      simp [hdn] at h1
    have htr : optStrTruthy (some b) = true := by simp [optStrTruthy, hbne]
    simp only [update_vpn_status, htr, if_true]
    split
    · exact vpn_names_inv_of_some _ _ _ hbne hd
    · split
      · split
        · simp [VpnNamesInv]
        · exact vpn_names_inv_of_some _ _ _ hbne hd
      · exact vpn_names_inv_of_some _ _ _ hbne hd

theorem disconnect_vpn_preserves_inv (silent called : Bool) (env : String → String)
    (s : VpnState) (h : VpnNamesInv s) :
    VpnNamesInv (disconnect_vpn silent called env s).1 := by
  obtain ⟨st, cb, dn⟩ := s
  obtain ⟨h1, h2, h3⟩ := h
  unfold disconnect_vpn
  split
  · rcases cb with _ | b
    · have hdn : dn = none := h1.mp rfl
      subst hdn
      simp [VpnNamesInv]
    · rename_i hfalse
      have hbne : b ≠ "" := fun he => h3 (by simp [he])
      simp [optStrTruthy, hbne] at hfalse
  · split <;> split <;> simp [VpnNamesInv, update_vpn_status_none]

theorem connect_vpn_preserves_inv (vd : VpnDef) (env : String → String)
    (s : VpnState) (menu : Bool) (h : VpnNamesInv s) :
    VpnNamesInv (connect_vpn vd env s menu).1 := by
  simp only [connect_vpn]
  split
  · exact h
  · split
    · refine update_vpn_status_preserves_inv env _ ?_
      exact vpn_names_inv_of_some _ _ _ (get_vpn_config_basename_ne_empty vd) (by simp)
    · rw [update_vpn_status_none]
      simp [VpnNamesInv]

theorem update_vpn_status_initial_inv (vpns : List VpnDef) (env : String → String) :
    VpnNamesInv (update_vpn_status_initial vpns env) := by
  unfold update_vpn_status_initial
  split
  · rename_i vd _
    exact vpn_names_inv_of_some _ _ _ (get_vpn_config_basename_ne_empty vd) (by simp)
  · simp [VpnNamesInv]

theorem disconnect_vpn_silent_sub (env : String → String) (s : VpnState) (a : String)
    (hb : s.config_basename = some a) (ha : a ≠ "") :
    disconnect_vpn true true env s =
      (⟨.VPN_OFF, none, none⟩,
       [.sysStop (get_vpn_service_name a), .sleepSec 3,
        .isActiveCheck (get_vpn_service_name a)]) := by
  have htr : optStrTruthy s.config_basename = true := by
    rw [hb]
    simp [optStrTruthy, ha]
  simp only [disconnect_vpn, htr, hb]
  simp [get_specific_vpn_service_status_events _ env (get_vpn_service_name_ne_empty a),
    optStrTruthy, ha]

theorem update_vpn_status_some_on (env : String → String) (st : VpnStatus) (b : String)
    (d : Option String) (hbne : b ≠ "")
    (hA : (get_specific_vpn_service_status (get_vpn_service_name b) env).1 = .VPN_ON) :
    update_vpn_status env ⟨st, some b, d⟩ =
      (⟨.VPN_ON, some b, d⟩,
       (get_specific_vpn_service_status (get_vpn_service_name b) env).2) := by
  have htr : optStrTruthy (some b) = true := by simp [optStrTruthy, hbne]
  simp only [update_vpn_status, htr, if_true, Option.getD_some]
  rw [if_pos hA]

/-- Claim C1 (corrected).  When `connect_vpn(B)` runs while a different
profile `A` is active, the command trace contains exactly one service stop —
of A's service, silent and without post-disconnect side effects — followed by
exactly one service start of B's service; after the settle wait the active
profile (key and display name) is B iff B's post-connect health check reports
`VPN_ON`; otherwise the profile fields are `None` and — amendment — the final
status is `VPN_OFF` regardless of which failure outcome the health check
reported, because the trailing `update_vpn_status()` call recomputes the
status with no profile active and overwrites the transient `VPN_ERROR`. -/
theorem c1_connect_switch (s : VpnState) (B : VpnDef) (env : String → String)
    (menu : Bool) (a : String) (hb : s.config_basename = some a) (ha : a ≠ "")
    (hne : a ≠ get_vpn_config_basename_no_ext B) :
    ((connect_vpn B env s menu).2.2.filter isSysStopOrStart =
      [.sysStop (get_vpn_service_name a),
       .sysStart (get_vpn_service_name (get_vpn_config_basename_no_ext B))]) ∧
    ((get_specific_vpn_service_status
        (get_vpn_service_name (get_vpn_config_basename_no_ext B)) env).1 = .VPN_ON →
      connect_vpn B env s menu =
        (⟨.VPN_ON, some (get_vpn_config_basename_no_ext B), some B.name⟩, false,
         [.message ("VPN: Connecting\n" ++ B.name.take 18),
          .sysStop (get_vpn_service_name a), .sleepSec 3,
          .isActiveCheck (get_vpn_service_name a),
          .sysStart (get_vpn_service_name (get_vpn_config_basename_no_ext B)), .sleepSec 7,
          .isActiveCheck (get_vpn_service_name (get_vpn_config_basename_no_ext B)),
          .geoRefresh,
          .isActiveCheck (get_vpn_service_name (get_vpn_config_basename_no_ext B))])) ∧
    ((get_specific_vpn_service_status
        (get_vpn_service_name (get_vpn_config_basename_no_ext B)) env).1 ≠ .VPN_ON →
      connect_vpn B env s menu =
        (⟨.VPN_OFF, none, none⟩, menu,
         [.message ("VPN: Connecting\n" ++ B.name.take 18),
          .sysStop (get_vpn_service_name a), .sleepSec 3,
          .isActiveCheck (get_vpn_service_name a),
          .sysStart (get_vpn_service_name (get_vpn_config_basename_no_ext B)), .sleepSec 7,
          .isActiveCheck (get_vpn_service_name (get_vpn_config_basename_no_ext B)),
          .message ("VPN: Failed\n" ++ B.name.take 18), .sleepSec 2])) := by
  have hguard : ¬(s.config_basename = some (get_vpn_config_basename_no_ext B) ∧
      s.status = .VPN_ON) := by
    rintro ⟨h1, _⟩
    rw [hb] at h1
    simp at h1
    exact hne h1
  have hdisc := disconnect_vpn_silent_sub env { s with status := .VPN_CONNECTING } a hb ha
  have hevB := get_specific_vpn_service_status_events
    (get_vpn_service_name (get_vpn_config_basename_no_ext B)) env
    (get_vpn_service_name_ne_empty _)
  have htr : optStrTruthy s.config_basename = true := by
    rw [hb]
    simp [optStrTruthy, ha]
  by_cases hA : (get_specific_vpn_service_status
      (get_vpn_service_name (get_vpn_config_basename_no_ext B)) env).1 = .VPN_ON
  · have hupd := update_vpn_status_some_on env .VPN_ON (get_vpn_config_basename_no_ext B)
      (some B.name) (get_vpn_config_basename_ne_empty B) hA
    simp only [connect_vpn, if_neg hguard, htr, if_true, hdisc, hupd, if_pos hA]
    refine ⟨?_, fun _ => ?_, fun hcontra => absurd hA hcontra⟩
    · simp [hevB, isSysStopOrStart]
    · simp [hevB]
  · simp only [connect_vpn, if_neg hguard, htr, if_true, hdisc, if_neg hA,
      update_vpn_status_none]
    refine ⟨?_, fun hcontra => absurd hcontra hA, fun _ => ?_⟩
    · simp [hevB, isSysStopOrStart]
    · simp [hevB]

/-- Claim C1 counterexample: with profile A (`a.udp`) active and every
health-check query answering `"garbage"` — the indeterminate outcome, which
the health-check primitive classifies as `VPN_ERROR` — `connect_vpn(B)`
finishes with status `VPN_OFF`, not the `VPN_ERROR` the claim requires. -/
theorem c1_counterexample :
    (get_specific_vpn_service_status
      (get_vpn_service_name (get_vpn_config_basename_no_ext ⟨"B", "b", "udp"⟩))
      (fun _ => "garbage")).1 = .VPN_ERROR ∧
    (connect_vpn ⟨"B", "b", "udp"⟩ (fun _ => "garbage")
      ⟨.VPN_ON, some "a.udp", some "A"⟩ true).1.status = .VPN_OFF ∧
    VpnStatus.VPN_OFF ≠ VpnStatus.VPN_ERROR := by
  refine ⟨by decide, by decide, by decide⟩

/-- Witness for C1: a concrete switch from active profile A to profile B
whose health check answers `"active"`, discharging every hypothesis of
`c1_connect_switch` and evaluating the conclusion. -/
theorem c1_connect_switch_witness :
    (connect_vpn ⟨"B", "b", "udp"⟩ (fun _ => "active")
      ⟨.VPN_ON, some "a.udp", some "A"⟩ true).1 =
      ⟨.VPN_ON, some "b.udp", some "B"⟩ ∧
    (connect_vpn ⟨"B", "b", "udp"⟩ (fun _ => "active")
      ⟨.VPN_ON, some "a.udp", some "A"⟩ true).2.2.filter isSysStopOrStart =
      [.sysStop "openvpn-client@a.udp", .sysStart "openvpn-client@b.udp"] := by
  have h := c1_connect_switch ⟨.VPN_ON, some "a.udp", some "A"⟩ ⟨"B", "b", "udp"⟩
    (fun _ => "active") true "a.udp" rfl (by decide) (by decide)
  have hstate := congrArg (fun p => p.1) (h.2.1 (by decide))
  exact ⟨hstate.trans (by decide), h.1.trans (by decide)⟩

/-- Claim C2 (corrected).  Over every reachable state of the VPN triple, the
profile key and display name are `None` together (one is `None` iff the other
is) and, when they are `None`, the status is `VPN_OFF` (hence `Off`-or-
`Error` as claimed); the converse direction of the claimed equivalence is
false — see the counterexample — because `update_vpn_status` can set
`VPN_ERROR` (and subsequently `VPN_OFF`) while leaving the profile fields
populated. -/
theorem c2_vpn_state_invariant (vpns : List VpnDef) (s : VpnState)
    (h : VpnReachable vpns s) :
    (s.config_basename = none ↔ s.display_name = none) ∧
    (s.config_basename = none → s.status = .VPN_OFF) := by
  have hinv : VpnNamesInv s := by
    induction h with
    | init env => exact update_vpn_status_initial_inv vpns env
    | update s env _ ih => exact update_vpn_status_preserves_inv env s ih
    | disconnect s silent env _ ih => exact disconnect_vpn_preserves_inv silent false env s ih
    | connect s vd env menu hmem _ ih => exact connect_vpn_preserves_inv vd env s menu ih
  exact ⟨hinv.1, hinv.2.1⟩

/-- Claim C2 counterexample: a concrete reachable state (reached by a
successful `connect_vpn` followed by an `update_vpn_status` whose health
check answers `"garbage"`) whose status is `VPN_ERROR` — i.e. `Off` or
`Error` — while the profile key and display name are still set, refuting the
claimed `iff`. -/
theorem c2_counterexample :
    VpnReachable [⟨"B", "b", "udp"⟩] ⟨.VPN_ERROR, some "b.udp", some "B"⟩ ∧
    ((⟨.VPN_ERROR, some "b.udp", some "B"⟩ : VpnState).status = .VPN_OFF ∨
     (⟨.VPN_ERROR, some "b.udp", some "B"⟩ : VpnState).status = .VPN_ERROR) ∧
    ¬((⟨.VPN_ERROR, some "b.udp", some "B"⟩ : VpnState).config_basename = none ∧
      (⟨.VPN_ERROR, some "b.udp", some "B"⟩ : VpnState).display_name = none) := by
  refine ⟨?_, by decide, by decide⟩
  have h0 : VpnReachable [⟨"B", "b", "udp"⟩]
      (update_vpn_status_initial [⟨"B", "b", "udp"⟩] (fun _ => "inactive")) :=
    VpnReachable.init _
  rw [show update_vpn_status_initial [⟨"B", "b", "udp"⟩] (fun _ => "inactive") =
      ⟨.VPN_OFF, none, none⟩ from by decide] at h0
  have h1 := VpnReachable.connect _ ⟨"B", "b", "udp"⟩ (fun _ => "active") true
    (by simp) h0
  rw [show (connect_vpn ⟨"B", "b", "udp"⟩ (fun _ => "active")
      ⟨.VPN_OFF, none, none⟩ true).1 = ⟨.VPN_ON, some "b.udp", some "B"⟩ from by decide] at h1
  have h2 := VpnReachable.update _ (fun _ => "garbage") h1
  rw [show (update_vpn_status (fun _ => "garbage")
      ⟨.VPN_ON, some "b.udp", some "B"⟩).1 =
      ⟨.VPN_ERROR, some "b.udp", some "B"⟩ from by decide] at h2
  exact h2

/-- Witness for C2: the invariant evaluated at the concrete reachable
startup state. -/
theorem c2_vpn_state_invariant_witness :
    ((⟨.VPN_OFF, none, none⟩ : VpnState).config_basename = none ↔
      (⟨.VPN_OFF, none, none⟩ : VpnState).display_name = none) ∧
    ((⟨.VPN_OFF, none, none⟩ : VpnState).config_basename = none →
      (⟨.VPN_OFF, none, none⟩ : VpnState).status = .VPN_OFF) := by
  have h0 : VpnReachable [] (update_vpn_status_initial [] (fun _ => "")) :=
    VpnReachable.init _
  rw [show update_vpn_status_initial [] (fun _ => "") = ⟨.VPN_OFF, none, none⟩ from
    by decide] at h0
  exact c2_vpn_state_invariant [] _ h0

/-- Claim C4 (confirmed).  While the touch-ignore window is active with its
expiry in the future, the loop performs zero pointer polls
(`get_touch_coordinates` is not called at all) and the window stays armed;
in the first cycle whose time reaches or passes the expiry, the window is
deactivated and the pointer is polled again (when a touch driver exists). -/
theorem c4_ignore_window_gates_polling (now_loop : ℚ) (t : TouchCtl) (tp : Bool)
    (hactive : t.ignore_active = true) :
    (now_loop < t.ignore_until → loop_touch_gate now_loop t tp = (t, false)) ∧
    (t.ignore_until ≤ now_loop →
      (loop_touch_gate now_loop t tp).1.ignore_active = false ∧
      (loop_touch_gate now_loop t tp).2 = tp) := by
  constructor
  · intro hlt
    simp [loop_touch_gate, hactive, hlt]
  · intro hle
    have hnlt : ¬ (now_loop < t.ignore_until) := not_lt.mpr hle
    simp [loop_touch_gate, hactive, hnlt]

/-- Witness for C4: a window armed until t=5, observed at t=3 (no poll,
still armed) and at t=7 (deactivated, polled). -/
theorem c4_ignore_window_witness :
    loop_touch_gate 3 ⟨true, 5, 0, 0⟩ true = (⟨true, 5, 0, 0⟩, false) ∧
    (loop_touch_gate 7 ⟨true, 5, 0, 0⟩ true).1.ignore_active = false ∧
    (loop_touch_gate 7 ⟨true, 5, 0, 0⟩ true).2 = true := by
  refine ⟨(c4_ignore_window_gates_polling 3 ⟨true, 5, 0, 0⟩ true rfl).1 (by norm_num),
    (c4_ignore_window_gates_polling 7 ⟨true, 5, 0, 0⟩ true rfl).2 (by norm_num)⟩

/-- Claim C5 (confirmed).  A press arriving within `touch_cooldown` (0.5 s)
of the last accepted press is classified `ACTION_NONE` with the whole state
untouched and no side effects, for any coordinates and any active screen. -/
theorem c5_global_cooldown (vpns : List VpnDef) (env : String → String) (now : ℚ)
    (tx ty : Int) (s : UiState) (h : now - s.last_button_press < touch_cooldown) :
    check_button_press vpns env now (some tx) (some ty) s = (.ACTION_NONE, s, []) := by
  simp [check_button_press, h]

/-- Witness for C5: a press 0.25 s after the last accepted press, landing
inside the main screen's `net_toggle` button, is still ignored. -/
theorem c5_global_cooldown_witness :
    check_button_press [] (fun _ => "") (1 / 4) (some 170) (some 10)
      ⟨false, false, false, 0, 0, 0, ⟨.VPN_OFF, none, none⟩⟩ =
    (.ACTION_NONE, ⟨false, false, false, 0, 0, 0, ⟨.VPN_OFF, none, none⟩⟩, []) :=
  c5_global_cooldown [] (fun _ => "") (1 / 4) 170 10
    ⟨false, false, false, 0, 0, 0, ⟨.VPN_OFF, none, none⟩⟩
    (by norm_num [touch_cooldown])

/-- Claim C6 (confirmed).  The health-check primitive maps `"active"` to On,
`"inactive"`/`"failed"` to Off, and every indeterminate outcome — empty
output, any other output, or a missing (empty) service name — to Error,
never silently to Off. -/
theorem c6_health_check_mapping (svc out : String) :
    (svc = "" → (get_specific_vpn_service_status svc (fun _ => out)).1 = .VPN_ERROR) ∧
    (svc ≠ "" →
      (((get_specific_vpn_service_status svc (fun _ => out)).1 = .VPN_ON) ↔
        out = "active") ∧
      (((get_specific_vpn_service_status svc (fun _ => out)).1 = .VPN_OFF) ↔
        (out = "inactive" ∨ out = "failed")) ∧
      (((get_specific_vpn_service_status svc (fun _ => out)).1 = .VPN_ERROR) ↔
        (out ≠ "active" ∧ ¬(out = "inactive" ∨ out = "failed")))) := by
  refine ⟨fun h => by simp [get_specific_vpn_service_status, h], fun h => ?_⟩
  simp only [get_specific_vpn_service_status, if_neg h]
  by_cases h1 : out = "active"
  · simp [h1]
  · by_cases h2 : out = "inactive" ∨ out = "failed"
    · simp [h1, h2]
    · by_cases h3 : out = ""
      · simp [h1, h2, h3]
      · simp [h1, h2, h3]

/-- Witness for C6: the mapping evaluated for a non-empty service name on the
outputs `"active"`, `"failed"` and `"weird"`, and for the empty name. -/
theorem c6_health_check_witness :
    (get_specific_vpn_service_status "openvpn-client@x" (fun _ => "active")).1 = .VPN_ON ∧
    (get_specific_vpn_service_status "openvpn-client@x" (fun _ => "failed")).1 = .VPN_OFF ∧
    (get_specific_vpn_service_status "openvpn-client@x" (fun _ => "weird")).1 = .VPN_ERROR ∧
    (get_specific_vpn_service_status "" (fun _ => "active")).1 = .VPN_ERROR := by
  refine ⟨((c6_health_check_mapping "openvpn-client@x" "active").2 (by decide)).1.mpr rfl,
    ((c6_health_check_mapping "openvpn-client@x" "failed").2 (by decide)).2.1.mpr
      (Or.inr rfl),
    ((c6_health_check_mapping "openvpn-client@x" "weird").2 (by decide)).2.2.mpr
      (by decide),
    (c6_health_check_mapping "" "active").1 rfl⟩

/-- Claim C7 (confirmed).  A cached read (AP SSID, TTL 10 s; AP client count,
TTL 5 s) returns the stored value with no fetch iff a value is stored and the
elapsed time since its timestamp is strictly below the TTL; otherwise it
fetches, stores the new value together with the new timestamp, and returns
the new value. -/
theorem c7_cache_ttl :
    (∀ (now : ℚ) (api : Option (Option String)) (c : ApSsidCache) (v : String),
      c.ssid = some v → now - c.timestamp < CACHE_AP_SSID_DURATION →
      get_cached_ap_ssid now api c = (v, c, false)) ∧
    (∀ (now : ℚ) (api : Option (Option String)) (c : ApSsidCache),
      c.ssid = none ∨ CACHE_AP_SSID_DURATION ≤ now - c.timestamp →
      get_cached_ap_ssid now api c =
        (api_ssid_value api, ⟨some (api_ssid_value api), now⟩, true)) ∧
    (∀ (now : ℚ) (api : Option (Option Nat)) (c : ApClientsCache) (k : Nat),
      c.clients = some k → now - c.timestamp < CACHE_AP_CLIENTS_DURATION →
      get_cached_ap_clients now api c = (k, c, false)) ∧
    (∀ (now : ℚ) (api : Option (Option Nat)) (c : ApClientsCache),
      c.clients = none ∨ CACHE_AP_CLIENTS_DURATION ≤ now - c.timestamp →
      get_cached_ap_clients now api c =
        (api_clients_value api, ⟨some (api_clients_value api), now⟩, true)) := by
  refine ⟨?_, ?_, ?_, ?_⟩
  · intro now api c v hv hlt
    simp [get_cached_ap_ssid, hv, hlt]
  · intro now api c h
    rcases h with h | h
    · simp [get_cached_ap_ssid, h]
    · rcases hc : c.ssid with _ | v
      · simp [get_cached_ap_ssid, hc]
      · simp [get_cached_ap_ssid, hc, not_lt.mpr h]
  · intro now api c k hk hlt
    simp [get_cached_ap_clients, hk, hlt]
  · intro now api c h
    rcases h with h | h
    · simp [get_cached_ap_clients, h]
    · rcases hc : c.clients with _ | k
      · simp [get_cached_ap_clients, hc]
      · simp [get_cached_ap_clients, hc, not_lt.mpr h]

/-- Witness for C7: the claim's end-to-end scenario — a client count of 3
cached at t = 0 with TTL 5 s: a read at t = 2 returns the cached 3 with no
fetch; a read at t = 6 performs a fresh fetch (here observing 5) and stores
value and timestamp. -/
theorem c7_cache_ttl_witness :
    get_cached_ap_clients 2 none ⟨some 3, 0⟩ = (3, ⟨some 3, 0⟩, false) ∧
    get_cached_ap_clients 6 (some (some 5)) ⟨some 3, 0⟩ = (5, ⟨some 5, 6⟩, true) := by
  refine ⟨c7_cache_ttl.2.2.1 2 none ⟨some 3, 0⟩ 3 rfl (by norm_num [CACHE_AP_CLIENTS_DURATION]),
    (c7_cache_ttl.2.2.2 6 (some (some 5)) ⟨some 3, 0⟩
      (Or.inr (by norm_num [CACHE_AP_CLIENTS_DURATION]))).trans (by rfl)⟩

/-- Claim C8 (confirmed).  For snapshots identical except for the CPU
temperature: when both temperatures parse as numbers, the change detector
reports a change iff the absolute difference exceeds the 2.0-degree
threshold; when either side fails to parse, it reports a change iff the two
raw strings differ. -/
theorem c8_temp_tolerance (o n : Snapshot) (ot nt : String)
    (hrest : o.rest = n.rest) (hot : o.cpu_temp = some ot) (hnt : n.cpu_temp = some nt) :
    (∀ (ov nv : ℚ), parseFloat ot = some ov → parseFloat nt = some nv →
      (have_states_changed o n = true ↔ |nv - ov| > temp_delta_threshold)) ∧
    ((parseFloat ot = none ∨ parseFloat nt = none) →
      (have_states_changed o n = true ↔ ot ≠ nt)) := by
  have hne : ¬(o.rest = [] ∧ o.cpu_temp = none) := by simp [hot]
  have hrr : ¬(o.rest ≠ n.rest) := by simp [hrest]
  constructor
  · intro ov nv hov hnv
    simp only [have_states_changed, if_neg hne, if_neg hrr, hot, hnt, hov, hnv]
    by_cases habs : |nv - ov| > temp_delta_threshold
    · simp [habs]
    · simp [habs]
  · intro hfail
    simp only [have_states_changed, if_neg hne, if_neg hrr, hot, hnt]
    rcases hpo : parseFloat ot with _ | ov <;> rcases hpn : parseFloat nt with _ | nv
    · by_cases hs : ot = nt <;> simp [hs]
    · by_cases hs : ot = nt <;> simp [hs]
    · by_cases hs : ot = nt <;> simp [hs]
    · rcases hfail with h | h
      · rw [hpo] at h
        exact absurd h (by simp)
      · rw [hpn] at h
        exact absurd h (by simp)

/-- Witness for C8: identical snapshots except temperature — `"50.0"` versus
`"53.0"` (difference 3 > 2) reports a change, and an unparseable new value
`"N/A"` differing from `"50.0"` as a raw string also reports a change. -/
theorem c8_temp_tolerance_witness :
    have_states_changed ⟨[("k", "v")], some "50.0"⟩ ⟨[("k", "v")], some "53.0"⟩ = true ∧
    have_states_changed ⟨[("k", "v")], some "50.0"⟩ ⟨[("k", "v")], some "N/A"⟩ = true := by
  have h50 : parseFloat "50.0" = some 50 := by
    have h : parseFloatParts "50.0" = some (false, 50, 0, 1) := by decide
    rw [parseFloat, h]
    norm_num
  have h53 : parseFloat "53.0" = some 53 := by
    have h : parseFloatParts "53.0" = some (false, 53, 0, 1) := by decide
    rw [parseFloat, h]
    norm_num
  have hna : parseFloat "N/A" = none := by
    have h : parseFloatParts "N/A" = none := by decide
    rw [parseFloat, h]
  constructor
  · refine ((c8_temp_tolerance ⟨[("k", "v")], some "50.0"⟩ ⟨[("k", "v")], some "53.0"⟩
      "50.0" "53.0" rfl rfl rfl).1 50 53 h50 h53).mpr ?_
    rw [show |(53 : ℚ) - 50| = 3 from abs_of_nonneg (by norm_num) |>.trans (by norm_num)]
    norm_num [temp_delta_threshold]
  · exact ((c8_temp_tolerance ⟨[("k", "v")], some "50.0"⟩ ⟨[("k", "v")], some "N/A"⟩
      "50.0" "N/A" rfl rfl rfl).2 (Or.inr hna)).mpr (by decide)

theorem vpn_nav_dispatch_cases (vpns : List VpnDef) (env : String → String) (tx ty : Int)
    (s : UiState) :
    vpn_nav_dispatch vpns env tx ty s = ⟨none, false, s, []⟩ ∨
    (vpn_nav_dispatch vpns env tx ty s).pressed ≠ none := by
  unfold vpn_nav_dispatch
  split
  · split_ifs <;> simp
  · left
    rfl

theorem vpn_nav_dispatch_none (vpns : List VpnDef) (env : String → String) (tx ty : Int)
    (s : UiState) (h : (vpn_nav_dispatch vpns env tx ty s).pressed = none) :
    vpn_nav_dispatch vpns env tx ty s = ⟨none, false, s, []⟩ := by
  rcases vpn_nav_dispatch_cases vpns env tx ty s with hc | hc
  · exact hc
  · exact absurd h hc

theorem vpn_menu_dispatch_none (vpns : List VpnDef) (env : String → String) (tx ty : Int)
    (s : UiState) (h : (vpn_menu_dispatch vpns env tx ty s).pressed = none) :
    vpn_menu_dispatch vpns env tx ty s = ⟨none, false, s, []⟩ := by
  simp only [vpn_menu_dispatch] at h ⊢
  split at h
  · rename_i heq
    rw [heq] at h
    exact Option.noConfusion h
  · rename_i heq
    have hd1 := vpn_nav_dispatch_none vpns env tx ty s heq
    rw [hd1] at h ⊢
    split
    · rename_i vd hr
      rw [hr] at h
      simp at h
    · rfl

theorem info_dispatch_none (tx ty : Int) (s : UiState)
    (h : (info_dispatch tx ty s).pressed = none) :
    info_dispatch tx ty s = ⟨none, false, s, []⟩ := by
  have hc : info_dispatch tx ty s = ⟨none, false, s, []⟩ ∨
      (info_dispatch tx ty s).pressed ≠ none := by
    unfold info_dispatch
    split
    · split_ifs <;> simp
    · left
      rfl
  rcases hc with hc | hc
  · exact hc
  · exact absurd h hc

theorem system_dispatch_none (tx ty : Int) (s : UiState)
    (h : (system_dispatch tx ty s).pressed = none) :
    system_dispatch tx ty s = ⟨none, false, s, []⟩ := by
  have hc : system_dispatch tx ty s = ⟨none, false, s, []⟩ ∨
      (system_dispatch tx ty s).pressed ≠ none := by
    unfold system_dispatch
    split
    · split_ifs <;> simp
    · left
      rfl
  rcases hc with hc | hc
  · exact hc
  · exact absurd h hc

theorem main_dispatch_none (tx ty : Int) (s : UiState)
    (h : (main_dispatch tx ty s).pressed = none) :
    main_dispatch tx ty s = ⟨none, false, s, []⟩ := by
  have hc : main_dispatch tx ty s = ⟨none, false, s, []⟩ ∨
      (main_dispatch tx ty s).pressed ≠ none := by
    unfold main_dispatch
    split
    · split_ifs <;> simp
    · left
      rfl
  rcases hc with hc | hc
  · exact hc
  · exact absurd h hc

theorem vpn_nav_dispatch_offset (vpns : List VpnDef) (env : String → String) (tx ty : Int)
    (s : UiState) :
    (vpn_nav_dispatch vpns env tx ty s).ui.vpn_list_scroll_offset =
        s.vpn_list_scroll_offset ∨
    ((vpn_nav_dispatch vpns env tx ty s).ui.vpn_list_scroll_offset =
        s.vpn_list_scroll_offset - 1 ∧ 0 < s.vpn_list_scroll_offset) ∨
    ((vpn_nav_dispatch vpns env tx ty s).ui.vpn_list_scroll_offset =
        s.vpn_list_scroll_offset + 1 ∧
      s.vpn_list_scroll_offset <
        (vpns.length : Int) - (VPN_LIST_ITEMS_PER_SCREEN : Int)) := by
  unfold vpn_nav_dispatch
  split
  · split_ifs <;> simp_all
  · left
    rfl

theorem vpn_menu_dispatch_offset (vpns : List VpnDef) (env : String → String)
    (tx ty : Int) (s : UiState) :
    (vpn_menu_dispatch vpns env tx ty s).ui.vpn_list_scroll_offset =
      (vpn_nav_dispatch vpns env tx ty s).ui.vpn_list_scroll_offset := by
  simp only [vpn_menu_dispatch]
  split
  · rfl
  · split
    · rfl
    · rfl

theorem info_dispatch_offset (tx ty : Int) (s : UiState) :
    (info_dispatch tx ty s).ui.vpn_list_scroll_offset = s.vpn_list_scroll_offset := by
  unfold info_dispatch
  split
  · split_ifs <;> rfl
  · rfl

theorem system_dispatch_offset (tx ty : Int) (s : UiState) :
    (system_dispatch tx ty s).ui.vpn_list_scroll_offset = s.vpn_list_scroll_offset := by
  unfold system_dispatch
  split
  · split_ifs <;> rfl
  · rfl

theorem main_dispatch_offset (tx ty : Int) (s : UiState) :
    (main_dispatch tx ty s).ui.vpn_list_scroll_offset = s.vpn_list_scroll_offset ∨
    (main_dispatch tx ty s).ui.vpn_list_scroll_offset = 0 := by
  unfold main_dispatch
  split
  · split_ifs <;> simp
  · left
    rfl

theorem vpn_nav_dispatch_menu_change (vpns : List VpnDef) (env : String → String)
    (tx ty : Int) (s : UiState)
    (h : (vpn_nav_dispatch vpns env tx ty s).menuChange = true) :
    (vpn_nav_dispatch vpns env tx ty s).ui = { s with show_vpn_menu := false } := by
  have hc : (vpn_nav_dispatch vpns env tx ty s).menuChange = false ∨
      (vpn_nav_dispatch vpns env tx ty s).ui = { s with show_vpn_menu := false } := by
    unfold vpn_nav_dispatch
    split
    · split_ifs <;> simp
    · left
      rfl
  rcases hc with hc | hc
  · rw [h] at hc
    exact absurd hc (by simp)
  · exact hc

theorem vpn_menu_dispatch_menu_change (vpns : List VpnDef) (env : String → String)
    (tx ty : Int) (s : UiState)
    (h : (vpn_menu_dispatch vpns env tx ty s).menuChange = true) :
    (vpn_menu_dispatch vpns env tx ty s).ui = { s with show_vpn_menu := false } := by
  simp only [vpn_menu_dispatch] at h ⊢
  split at h
  · exact vpn_nav_dispatch_menu_change vpns env tx ty s h
  · rename_i heq
    have hd1 := vpn_nav_dispatch_none vpns env tx ty s heq
    rw [hd1] at h
    split at h
    · simp at h
    · simp at h

theorem info_dispatch_menu_change (tx ty : Int) (s : UiState)
    (h : (info_dispatch tx ty s).menuChange = true) :
    (info_dispatch tx ty s).ui = { s with show_info_screen := false } := by
  have hc : (info_dispatch tx ty s).menuChange = false ∨
      (info_dispatch tx ty s).ui = { s with show_info_screen := false } := by
    unfold info_dispatch
    split
    · split_ifs <;> simp
    · left
      rfl
  rcases hc with hc | hc
  · rw [h] at hc
    exact absurd hc (by simp)
  · exact hc

theorem system_dispatch_menu_change (tx ty : Int) (s : UiState)
    (h : (system_dispatch tx ty s).menuChange = true) :
    (system_dispatch tx ty s).ui = { s with show_system_menu := false } := by
  have hc : (system_dispatch tx ty s).menuChange = false ∨
      (system_dispatch tx ty s).ui = { s with show_system_menu := false } := by
    unfold system_dispatch
    split
    · split_ifs <;> simp
    · left
      rfl
  rcases hc with hc | hc
  · rw [h] at hc
    exact absurd hc (by simp)
  · exact hc

theorem main_dispatch_menu_change (tx ty : Int) (s : UiState)
    (h : (main_dispatch tx ty s).menuChange = true) :
    (main_dispatch tx ty s).ui =
        { s with show_vpn_menu := true, vpn_list_scroll_offset := 0 } ∨
    (main_dispatch tx ty s).ui = { s with show_system_menu := true } ∨
    (main_dispatch tx ty s).ui = { s with show_info_screen := true, info_page := 0 } := by
  have hc : (main_dispatch tx ty s).menuChange = false ∨
      ((main_dispatch tx ty s).ui =
          { s with show_vpn_menu := true, vpn_list_scroll_offset := 0 } ∨
       (main_dispatch tx ty s).ui = { s with show_system_menu := true } ∨
       (main_dispatch tx ty s).ui =
          { s with show_info_screen := true, info_page := 0 }) := by
    unfold main_dispatch
    split
    · split_ifs <;> simp
    · left
      rfl
  rcases hc with hc | hc
  · rw [h] at hc
    exact absurd hc (by simp)
  · exact hc

theorem screen_dispatch_none (vpns : List VpnDef) (env : String → String) (tx ty : Int)
    (s : UiState) (h : (screen_dispatch vpns env tx ty s).pressed = none) :
    screen_dispatch vpns env tx ty s = ⟨none, false, s, []⟩ := by
  unfold screen_dispatch at h ⊢
  split_ifs at h ⊢
  · exact vpn_menu_dispatch_none vpns env tx ty s h
  · exact info_dispatch_none tx ty s h
  · exact system_dispatch_none tx ty s h
  · exact main_dispatch_none tx ty s h

theorem screen_dispatch_offset_bounds (vpns : List VpnDef) (env : String → String)
    (tx ty : Int) (s : UiState) (h0 : 0 ≤ s.vpn_list_scroll_offset)
    (h1 : s.vpn_list_scroll_offset ≤
      max 0 ((vpns.length : Int) - (VPN_LIST_ITEMS_PER_SCREEN : Int))) :
    0 ≤ (screen_dispatch vpns env tx ty s).ui.vpn_list_scroll_offset ∧
    (screen_dispatch vpns env tx ty s).ui.vpn_list_scroll_offset ≤
      max 0 ((vpns.length : Int) - (VPN_LIST_ITEMS_PER_SCREEN : Int)) := by
  have hmax : (vpns.length : Int) - (VPN_LIST_ITEMS_PER_SCREEN : Int) ≤
      max 0 ((vpns.length : Int) - (VPN_LIST_ITEMS_PER_SCREEN : Int)) := le_max_right _ _
  have hmax0 : (0 : Int) ≤
      max 0 ((vpns.length : Int) - (VPN_LIST_ITEMS_PER_SCREEN : Int)) := le_max_left _ _
  unfold screen_dispatch
  split_ifs
  · rw [vpn_menu_dispatch_offset]
    rcases vpn_nav_dispatch_offset vpns env tx ty s with he | ⟨he, hg⟩ | ⟨he, hg⟩ <;>
      rw [he] <;> omega
  · rw [info_dispatch_offset]
    exact ⟨h0, h1⟩
  · rw [system_dispatch_offset]
    exact ⟨h0, h1⟩
  · rcases main_dispatch_offset tx ty s with he | he <;> rw [he] <;> exact ⟨by omega, by omega⟩

theorem screen_dispatch_menu_change (vpns : List VpnDef) (env : String → String)
    (tx ty : Int) (s : UiState) (h : (screen_dispatch vpns env tx ty s).menuChange = true) :
    activeScreen (screen_dispatch vpns env tx ty s).ui ≠ activeScreen s := by
  unfold screen_dispatch at h ⊢
  split_ifs at h ⊢ with h1 h2 h3
  · rw [vpn_menu_dispatch_menu_change vpns env tx ty s h]
    unfold activeScreen
    simp only [h1]
    split_ifs <;> simp_all
  · rw [info_dispatch_menu_change tx ty s h]
    unfold activeScreen
    simp only [h1, h2]
    split_ifs <;> simp_all
  · rw [system_dispatch_menu_change tx ty s h]
    unfold activeScreen
    simp only [h1, h2, h3]
    split_ifs <;> simp_all
  · rcases main_dispatch_menu_change tx ty s h with he | he | he <;> rw [he] <;>
      unfold activeScreen <;> simp_all

/-- Claim C10 (confirmed).  Whenever `check_button_press` classifies a touch
as `ACTION_NONE` — coordinates absent, within the cooldown, outside every
button area of the active screen, or inside a control whose guard fails —
the entire state (menu flags, info page, scroll offset, the accepted-press
timestamp, and the VPN fields) is unchanged and no side effect is emitted. -/
theorem c10_none_is_frame (vpns : List VpnDef) (env : String → String) (now : ℚ)
    (tx ty : Option Int) (s : UiState)
    (h : (check_button_press vpns env now tx ty s).1 = .ACTION_NONE) :
    (check_button_press vpns env now tx ty s).2.1 = s ∧
    (check_button_press vpns env now tx ty s).2.2 = [] := by
  rcases tx with _ | tx
  · simp [check_button_press]
  rcases ty with _ | ty
  · simp [check_button_press]
  by_cases hc : now - s.last_button_press < touch_cooldown
  · simp [check_button_press, hc]
  · rw [check_button_press_cooldown_ok vpns env now tx ty s hc] at h ⊢
    unfold check_button_press_hit at h ⊢
    split at h
    · split at h <;> simp at h
    · rename_i heq
      rw [screen_dispatch_none vpns env tx ty s heq]
      exact ⟨rfl, rfl⟩

/-- Witness for C10: a press far from every button of the main screen (the
left text column) changes nothing. -/
theorem c10_none_is_frame_witness :
    (check_button_press [] (fun _ => "") 10 (some 5) (some 60)
      ⟨false, false, false, 0, 0, 0, ⟨.VPN_OFF, none, none⟩⟩).2.1 =
      ⟨false, false, false, 0, 0, 0, ⟨.VPN_OFF, none, none⟩⟩ ∧
    (check_button_press [] (fun _ => "") 10 (some 5) (some 60)
      ⟨false, false, false, 0, 0, 0, ⟨.VPN_OFF, none, none⟩⟩).2.2 = [] := by
  refine c10_none_is_frame [] (fun _ => "") 10 (some 5) (some 60)
    ⟨false, false, false, 0, 0, 0, ⟨.VPN_OFF, none, none⟩⟩ ?_
  rw [check_button_press_cooldown_ok [] (fun _ => "") 10 5 60
    ⟨false, false, false, 0, 0, 0, ⟨.VPN_OFF, none, none⟩⟩ (by norm_num [touch_cooldown])]
  decide

/-- Claim C9 (confirmed).  On the VPN menu the scroll offset stays inside
`[0, max 0 (profileCount - VPN_LIST_ITEMS_PER_SCREEN)]` across every press
(menu entry resets it to 0, which lies in the interval), and an `up` press at
offset 0 or a `down` press at the maximal offset leaves the state entirely
unchanged. -/
theorem c9_scroll_offset_clamped (vpns : List VpnDef) (env : String → String)
    (now : ℚ) (tx ty : Option Int) (s : UiState)
    (h0 : 0 ≤ s.vpn_list_scroll_offset)
    (h1 : s.vpn_list_scroll_offset ≤
      max 0 ((vpns.length : Int) - (VPN_LIST_ITEMS_PER_SCREEN : Int))) :
    (0 ≤ (check_button_press vpns env now tx ty s).2.1.vpn_list_scroll_offset ∧
     (check_button_press vpns env now tx ty s).2.1.vpn_list_scroll_offset ≤
       max 0 ((vpns.length : Int) - (VPN_LIST_ITEMS_PER_SCREEN : Int))) ∧
    (∀ tx2 ty2 : Int, firstHit VPN_LIST_NAV_BUTTON_AREAS tx2 ty2 = some "up" →
      s.vpn_list_scroll_offset = 0 →
      vpn_nav_dispatch vpns env tx2 ty2 s = ⟨none, false, s, []⟩) ∧
    (∀ tx2 ty2 : Int, firstHit VPN_LIST_NAV_BUTTON_AREAS tx2 ty2 = some "down" →
      s.vpn_list_scroll_offset =
        max 0 ((vpns.length : Int) - (VPN_LIST_ITEMS_PER_SCREEN : Int)) →
      vpn_nav_dispatch vpns env tx2 ty2 s = ⟨none, false, s, []⟩) := by
  refine ⟨?_, ?_, ?_⟩
  · rcases tx with _ | tx
    · rw [show check_button_press vpns env now none ty s = (.ACTION_NONE, s, []) from
        by simp [check_button_press]]
      exact ⟨h0, h1⟩
    rcases ty with _ | ty
    · rw [show check_button_press vpns env now (some tx) none s = (.ACTION_NONE, s, []) from
        by simp [check_button_press]]
      exact ⟨h0, h1⟩
    by_cases hc : now - s.last_button_press < touch_cooldown
    · rw [show check_button_press vpns env now (some tx) (some ty) s =
          (.ACTION_NONE, s, []) from by simp [check_button_press, hc]]
      exact ⟨h0, h1⟩
    · rw [check_button_press_cooldown_ok vpns env now tx ty s hc]
      unfold check_button_press_hit
      split
      · exact screen_dispatch_offset_bounds vpns env tx ty s h0 h1
      · exact screen_dispatch_offset_bounds vpns env tx ty s h0 h1
  · intro tx2 ty2 hf hz
    unfold vpn_nav_dispatch
    rw [hf]
    simp [hz]
  · intro tx2 ty2 hf hm
    have hng : ¬ (s.vpn_list_scroll_offset <
        (vpns.length : Int) - (VPN_LIST_ITEMS_PER_SCREEN : Int)) := by
      rw [hm]
      exact not_lt.mpr (le_max_right _ _)
    unfold vpn_nav_dispatch
    rw [hf]
    simp [hng]

/-- Witness for C9: the VPN menu with one profile (maximal offset 0): the
offset after an `up` press at (170, 10) stays 0, and the same press — landing
on the `up` button while the offset is 0 — changes nothing. -/
theorem c9_scroll_offset_witness :
    (0 ≤ (check_button_press [⟨"A", "a", "udp"⟩] (fun _ => "") 10 (some 170) (some 10)
        ⟨false, false, true, 0, 0, 0, ⟨.VPN_OFF, none, none⟩⟩).2.1.vpn_list_scroll_offset ∧
     (check_button_press [⟨"A", "a", "udp"⟩] (fun _ => "") 10 (some 170) (some 10)
        ⟨false, false, true, 0, 0, 0, ⟨.VPN_OFF, none, none⟩⟩).2.1.vpn_list_scroll_offset ≤
       max 0 ((([⟨"A", "a", "udp"⟩] : List VpnDef).length : Int) -
         (VPN_LIST_ITEMS_PER_SCREEN : Int))) ∧
    vpn_nav_dispatch [⟨"A", "a", "udp"⟩] (fun _ => "") 170 10
      ⟨false, false, true, 0, 0, 0, ⟨.VPN_OFF, none, none⟩⟩ =
      ⟨none, false, ⟨false, false, true, 0, 0, 0, ⟨.VPN_OFF, none, none⟩⟩, []⟩ := by
  have h := c9_scroll_offset_clamped [⟨"A", "a", "udp"⟩] (fun _ => "") 10
    (some 170) (some 10) ⟨false, false, true, 0, 0, 0, ⟨.VPN_OFF, none, none⟩⟩
    (by decide) (by decide)
  exact ⟨h.1, h.2.1 170 10 (by decide) rfl⟩

/-- Claim C3 (corrected).  Every `ACTION_MENU_CHANGE` result does change the
active screen, and the main loop reacts to it by arming the touch-ignore
window until `now + 0.7` s and clearing the in-flight touch sample; but the
converse direction of the claim fails — see the counterexample — because a
VPN-row tap whose `connect_vpn` closes the VPN menu (already-active no-op or
successful connect) performs a screen transition yet is classified
`ACTION_NORMAL_PRESS`, arming no ignore window. -/
theorem c3_menu_change_classification (vpns : List VpnDef) (env : String → String)
    (now : ℚ) (tx ty : Option Int) (s : UiState)
    (h : (check_button_press vpns env now tx ty s).1 = .ACTION_MENU_CHANGE) :
    activeScreen (check_button_press vpns env now tx ty s).2.1 ≠ activeScreen s ∧
    (∀ (now2 : ℚ) (t : TouchCtl),
      apply_action_result now2 .ACTION_MENU_CHANGE t =
        (⟨true, now2 + 7 / 10, 0, 0⟩, true)) := by
  refine ⟨?_, fun now2 t => rfl⟩
  rcases tx with _ | tx
  · simp [check_button_press] at h
  rcases ty with _ | ty
  · simp [check_button_press] at h
  by_cases hc : now - s.last_button_press < touch_cooldown
  · simp [check_button_press, hc] at h
  · rw [check_button_press_cooldown_ok vpns env now tx ty s hc] at h ⊢
    unfold check_button_press_hit at h ⊢
    split at h
    · split at h
      · rename_i hmc
        exact screen_dispatch_menu_change vpns env tx ty s hmc
      · simp at h
    · simp at h

/-- Witness for C3: tapping the main screen's `info` button at (170, 95) is a
menu change — the active screen flips from Main to InfoScreen — and the loop
arms the 0.7 s ignore window and clears the touch sample. -/
theorem c3_menu_change_witness :
    activeScreen (check_button_press [] (fun _ => "") 10 (some 170) (some 95)
      ⟨false, false, false, 0, 0, 0, ⟨.VPN_OFF, none, none⟩⟩).2.1 ≠
      activeScreen ⟨false, false, false, 0, 0, 0, ⟨.VPN_OFF, none, none⟩⟩ ∧
    (∀ (now2 : ℚ) (t : TouchCtl),
      apply_action_result now2 .ACTION_MENU_CHANGE t =
        (⟨true, now2 + 7 / 10, 0, 0⟩, true)) := by
  refine c3_menu_change_classification [] (fun _ => "") 10 (some 170) (some 95)
    ⟨false, false, false, 0, 0, 0, ⟨.VPN_OFF, none, none⟩⟩ ?_
  rw [check_button_press_cooldown_ok [] (fun _ => "") 10 170 95
    ⟨false, false, false, 0, 0, 0, ⟨.VPN_OFF, none, none⟩⟩ (by norm_num [touch_cooldown])]
  decide

/-- Claim C3 counterexample: on the VPN menu with profile A active, tapping
A's row (10, 30) makes `connect_vpn` close the menu — the active screen
changes from VpnMenu to Main — yet the press is classified
`ACTION_NORMAL_PRESS`, not `ACTION_MENU_CHANGE`. -/
theorem c3_counterexample :
    (check_button_press [⟨"A", "a", "udp"⟩] (fun _ => "active") 10 (some 10) (some 30)
      ⟨false, false, true, 0, 0, 0, ⟨.VPN_ON, some "a.udp", some "A"⟩⟩).1 =
      .ACTION_NORMAL_PRESS ∧
    activeScreen (check_button_press [⟨"A", "a", "udp"⟩] (fun _ => "active") 10
      (some 10) (some 30)
      ⟨false, false, true, 0, 0, 0, ⟨.VPN_ON, some "a.udp", some "A"⟩⟩).2.1 ≠
      activeScreen ⟨false, false, true, 0, 0, 0, ⟨.VPN_ON, some "a.udp", some "A"⟩⟩ := by
  rw [check_button_press_cooldown_ok [⟨"A", "a", "udp"⟩] (fun _ => "active") 10 10 30
    ⟨false, false, true, 0, 0, 0, ⟨.VPN_ON, some "a.udp", some "A"⟩⟩
    (by norm_num [touch_cooldown])]
  exact ⟨by decide, by decide⟩

